import Mathlib

/-!
# Slice resource-usage reconciliation

A shallow embedding of `controllers/slice/resource_usage.go`:

* `calculatePercentageDiff`, `checkToUpdateControllerSliceResourceQuota`,
  `getCPUandMemoryMetricsofNs` are pure functions over Go `int64` values, which are
  integers here, every arithmetic result being reduced into the `int64` range by `wrap64`;
* `reconcileNamespaceResourceUsage` mutates the slice it receives and talks to the API
  server, the metrics server and the hub; here it is a function from the reconciler's
  collaborators and the slice to an `Outcome` holding the slice after the pass, the returned
  `(ctrl.Result, error)` pair and the calls made to the collaborators, in order;
* a Go runtime panic is the `Except.error` side of `Except Fault`.
-/

namespace ResourceUsage

/-! ## Go `int64` arithmetic -/

/-- Reduction of an integer into the `int64` range, two's complement. -/
def wrap64 (x : Int) : Int :=
  (x + 2 ^ 63) % 2 ^ 64 - 2 ^ 63

/-- Membership in the `int64` range. -/
def inInt64 (x : Int) : Prop :=
  -(2 ^ 63) ≤ x ∧ x < 2 ^ 63

instance (x : Int) : Decidable (inInt64 x) := by
  unfold inInt64; infer_instance

/-- Run-time panics of the Go program. -/
inductive Fault where
  | divideByZero
  | nilDereference
  deriving DecidableEq, Repr

deriving instance DecidableEq for Except

/-! ## `k8s.io/apimachinery/pkg/api/resource` -/

/-- Output format tag of a quantity; `unset` is the empty string of a zero value. -/
inductive Format where
  | unset
  | DecimalExponent
  | BinarySI
  | DecimalSI
  deriving DecidableEq, Repr

/-- A `resource.Quantity` in its `int64Amount` representation: the number
`value * 10 ^ scale`, and the format it prints in. -/
structure Quantity where
  value : Int
  scale : Int
  format : Format
  deriving DecidableEq, Repr

/-- The zero value `resource.Quantity{}`. -/
def Quantity.zero : Quantity := ⟨0, 0, .unset⟩

/-- Go `resource.NewMilliQuantity(value, format)`: the quantity `value * 10 ^ (-3)`. -/
def NewMilliQuantity (value : Int) (format : Format) : Quantity :=
  ⟨value, -3, format⟩

/-- Go `resource.NewQuantity(value, format)`: the quantity `value`. -/
def NewQuantity (value : Int) (format : Format) : Quantity :=
  ⟨value, 0, format⟩

/-- Go `Quantity.AsInt64()`: the value as an `int64` when the conversion is exact and cheap,
otherwise `(0, false)`. A quantity with a negative scale is never converted. -/
def Quantity.AsInt64 (q : Quantity) : Int × Bool :=
  if q.scale = 0 then (q.value, true)
  else if q.scale < 0 then (0, false)
  else if inInt64 (q.value * 10 ^ q.scale.toNat) then (q.value * 10 ^ q.scale.toNat, true)
  else (0, false)

/-- The number a quantity stands for. -/
def Quantity.toRat (q : Quantity) : ℚ :=
  (q.value : ℚ) * (10 : ℚ) ^ q.scale

/-! ## API types -/

/-- Go `spokev1alpha1.Resource` (package `apis-ent/pkg/worker/v1alpha1`), by the two fields
the source names. -/
structure Resource where
  Cpu : Quantity
  Memory : Quantity
  deriving DecidableEq, Repr

/-- Go `spokev1alpha1.NamespaceResourceQuotaStatus`, by the fields the source names. -/
structure NamespaceResourceQuotaStatus where
  ResourceUsage : Resource
  Namespace : String
  deriving DecidableEq, Repr

/-- Go `spokev1alpha1.ClusterResourceQuotaStatus`, by the fields the source names. -/
structure ClusterResourceQuotaStatus where
  NamespaceResourceQuotaStatus : List NamespaceResourceQuotaStatus
  ResourcesUsage : Resource
  deriving DecidableEq, Repr

/-- Go `spokev1alpha1.WorkerSliceResourceQuotaStatus`, by the field the source names. -/
structure WorkerSliceResourceQuotaStatus where
  ClusterResourceQuotaStatus : ClusterResourceQuotaStatus
  deriving DecidableEq, Repr

/-- The zero value `spokev1alpha1.WorkerSliceResourceQuotaStatus{}`: no entries, zero
quantities. -/
def WorkerSliceResourceQuotaStatus.empty : WorkerSliceResourceQuotaStatus :=
  ⟨⟨[], ⟨Quantity.zero, Quantity.zero⟩⟩⟩

/-- Modelled from the spec: the declaration of `kubeslicev1beta1.SliceConfig` (package
`api/v1beta1`) is missing; this is the one field the pass reads and writes, the stored
quota status the slice owns, a pointer that is `none` when nil. -/
structure SliceConfig where
  WorkerSliceResourceQuotaStatus : Option WorkerSliceResourceQuotaStatus
  deriving DecidableEq, Repr

/-- Modelled from the spec: the declaration of `kubeslicev1beta1.SliceStatus` is missing;
these are the fields the pass reads and writes, the slice configuration holding the quota
status and the last-updated timestamp. -/
structure SliceStatus where
  SliceConfig : SliceConfig
  ConfigUpdatedOn : Int
  deriving DecidableEq, Repr

/-- Modelled from the spec: the declaration of `kubeslicev1beta1.Slice` is missing; a slice
has an identity (its name), owns one quota status and a last-updated timestamp. -/
structure Slice where
  Name : String
  Status : SliceStatus
  deriving DecidableEq, Repr

/-- Go `corev1.Namespace`, by its name. -/
structure Namespace where
  Name : String
  deriving DecidableEq, Repr

/-- Go `v1beta1.ContainerMetrics`, by the two readings the aggregation takes of its usage:
`cpuMilli` is `Usage.Cpu().MilliValue()` and `memBytes` is the value of
`Usage.Memory().AsInt64()`. -/
structure ContainerMetrics where
  Name : String
  cpuMilli : Int
  memBytes : Int
  deriving DecidableEq, Repr

/-- Go `v1beta1.PodMetrics`. -/
structure PodMetrics where
  Name : String
  Containers : List ContainerMetrics
  deriving DecidableEq, Repr

/-- Go `ctrl.Result`. -/
structure Result where
  Requeue : Bool := false
  RequeueAfter : Int := 0
  deriving DecidableEq, Repr

/-! ## The pure functions -/

/-- Go `calculatePercentageDiff(a, b) = ((b - a) * 100) / a` on `int64`: the quotient
truncates toward zero and a zero divisor panics. -/
def calculatePercentageDiff (a b : Int) : Except Fault Int :=
  if a = 0 then .error .divideByZero
  else .ok (wrap64 (Int.tdiv (wrap64 (wrap64 (b - a) * 100)) a))

set_option linter.unusedVariables false in
/-- Go `checkToUpdateControllerSliceResourceQuota`. The second operand of `||` is evaluated
only when the first is false; both calls receive `cpu`. -/
def checkToUpdateControllerSliceResourceQuota (sliceUsage : Resource) (cpu mem : Int) :
    Except Fault Bool :=
  let cpuUsage := sliceUsage.Cpu.AsInt64.1
  let memUsage := sliceUsage.Memory.AsInt64.1
  match calculatePercentageDiff cpuUsage cpu with
  | .error f => .error f
  | .ok d1 =>
    if d1 > 5 then .ok true
    else
      match calculatePercentageDiff memUsage cpu with
      | .error f => .error f
      | .ok d2 => if d2 > 5 then .ok true else .ok false

/-- Go `getCPUandMemoryMetricsofNs`: the two running totals over every container of every
pod, in order. -/
def getCPUandMemoryMetricsofNs (podMetricsList : List PodMetrics) : Int × Int :=
  podMetricsList.foldl
    (fun acc podMetrics =>
      podMetrics.Containers.foldl
        (fun tot container =>
          (wrap64 (tot.1 + container.cpuMilli), wrap64 (tot.2 + container.memBytes)))
        acc)
    (0, 0)

/-- The drift of the specification, over the integers:
`drift(observed, candidate) = ((candidate - observed) * 100) / observed`, the quotient
truncating toward zero. -/
def drift (observed candidate : Int) : Int :=
  Int.tdiv ((candidate - observed) * 100) observed

/-! ## The reconciliation pass -/

/-- Go `error` values, by their message. -/
abbrev Error := String

/-- What `PodMetricses(namespace).List(...)` hands back: the list object and the error. The
list object is there, possibly without items, also when the error is not nil. -/
structure PodMetricsListResult where
  Items : List PodMetrics
  err : Option Error

/-- The collaborators of one pass.
`listNamespaces name` is `r.List` with the label selector of the slice called `name`.
`clientset` is the result of `metricsv.NewForConfig`, `none` when construction fails (the
error is only logged); `c k namespace` is what the `k`-th `PodMetricses(namespace).List`
call of the pass returns, so that two reads of one namespace may differ. -/
structure Cluster where
  listNamespaces : String → Except Error (List Namespace)
  clientset : Option (Nat → String → PodMetricsListResult)

/-- What a pass does that is visible outside it, apart from the slice object. -/
inductive Event where
  | checkToUpdate (sliceUsage : Resource) (cpu mem : Int)
  | hubUpdateResourceUsage (sliceConfigName : String) (status : WorkerSliceResourceQuotaStatus)
  | statusUpdate (slice : Slice)
  deriving DecidableEq, Repr

/-- The end of a pass that did not panic: the slice object as the pass leaves it, the
returned `ctrl.Result` and `error`, and the events of the pass in order. -/
structure Outcome where
  slice : Slice
  result : Result
  err : Option Error
  events : List Event
  deriving DecidableEq, Repr

/-- The first loop of `reconcileNamespaceResourceUsage` (lines 57-67), from the `k`-th list
call on: the totals over the namespaces, or the error of the first failing fetch. -/
def decisionLoop (clientset : Option (Nat → String → PodMetricsListResult)) :
    List Namespace → Nat → Int → Int → Except Fault (Except Error (Int × Int))
  | [], _, cpuAllNS, memAllNs => .ok (.ok (cpuAllNS, memAllNs))
  | ns :: rest, k, cpuAllNS, memAllNs =>
    match clientset with
    | none => .error .nilDereference
    | some c =>
      let podMetricsList := c k ns.Name
      match podMetricsList.err with
      | some err => .ok (.error err)
      | none =>
        let cpu := (getCPUandMemoryMetricsofNs podMetricsList.Items).1
        let mem := (getCPUandMemoryMetricsofNs podMetricsList.Items).2
        decisionLoop clientset rest (k + 1) (wrap64 (cpuAllNS + cpu)) (wrap64 (memAllNs + mem))

/-- The second loop of `reconcileNamespaceResourceUsage` (lines 83-99), from the `k`-th list
call on: the per-namespace breakdown appended to `allNsResourceUsage`. The fetch error is
dropped. `memAsQuantity` is built from `cpu` and `cpuAsQuantity` from `mem`. -/
def publishLoop (clientset : Option (Nat → String → PodMetricsListResult)) :
    List Namespace → Nat → List NamespaceResourceQuotaStatus →
      Except Fault (List NamespaceResourceQuotaStatus)
  | [], _, allNsResourceUsage => .ok allNsResourceUsage
  | ns :: rest, k, allNsResourceUsage =>
    match clientset with
    | none => .error .nilDereference
    | some c =>
      let podMetricsList := c k ns.Name
      let cpu := (getCPUandMemoryMetricsofNs podMetricsList.Items).1
      let mem := (getCPUandMemoryMetricsofNs podMetricsList.Items).2
      let memAsQuantity := NewMilliQuantity cpu .BinarySI
      let cpuAsQuantity := NewMilliQuantity mem .DecimalSI
      publishLoop clientset rest (k + 1)
        (allNsResourceUsage ++
          [{ ResourceUsage := { Cpu := cpuAsQuantity, Memory := memAsQuantity },
             Namespace := ns.Name }])

/-- Lines 82-115 of `reconcileNamespaceResourceUsage`, the body of `if updateResourceUsage`:
`quota` is what `slice.Status.SliceConfig.WorkerSliceResourceQuotaStatus` points to on
entry, `events` what happened before. -/
def publish (r : Cluster) (slice : Slice) (quota : WorkerSliceResourceQuotaStatus)
    (namespacesInSlice : List Namespace) (cpuAllNS memAllNs currentTime : Int)
    (events : List Event) : Except Fault Outcome :=
  match publishLoop r.clientset namespacesInSlice namespacesInSlice.length [] with
  | .error f => .error f
  | .ok allNsResourceUsage =>
    let cpuAllNSQuantity := NewMilliQuantity cpuAllNS .BinarySI
    let memAllNsQuantity := NewMilliQuantity memAllNs .DecimalSI
    let quota1 : WorkerSliceResourceQuotaStatus :=
      { quota with
        ClusterResourceQuotaStatus :=
          { NamespaceResourceQuotaStatus := allNsResourceUsage,
            ResourcesUsage := { Memory := memAllNsQuantity, Cpu := cpuAllNSQuantity } } }
    let slice1 : Slice :=
      { slice with
        Status := { slice.Status with
          SliceConfig := { slice.Status.SliceConfig with
            WorkerSliceResourceQuotaStatus := some quota1 } } }
    let slice2 : Slice :=
      { slice1 with Status := { slice1.Status with ConfigUpdatedOn := currentTime } }
    .ok { slice := slice2, result := {}, err := none,
          events := events ++ [.hubUpdateResourceUsage slice.Name quota1, .statusUpdate slice2] }

set_option linter.unusedVariables false in
/-- Go `(*SliceReconciler).reconcileNamespaceResourceUsage`. -/
def reconcileNamespaceResourceUsage (r : Cluster) (slice : Slice)
    (currentTime configUpdatedOn : Int) : Except Fault Outcome :=
  match r.listNamespaces slice.Name with
  | .error err => .ok { slice := slice, result := {}, err := some err, events := [] }
  | .ok namespacesInSlice =>
    match decisionLoop r.clientset namespacesInSlice 0 0 0 with
    | .error f => .error f
    | .ok (.error err) => .ok { slice := slice, result := {}, err := some err, events := [] }
    | .ok (.ok (cpuAllNS, memAllNs)) =>
      if cpuAllNS = 0 ∧ memAllNs = 0 then
        .ok { slice := slice, result := {}, err := none, events := [] }
      else
        match slice.Status.SliceConfig.WorkerSliceResourceQuotaStatus with
        | none =>
          publish r slice WorkerSliceResourceQuotaStatus.empty namespacesInSlice
            cpuAllNS memAllNs currentTime []
        | some quota =>
          let sliceUsage := quota.ClusterResourceQuotaStatus.ResourcesUsage
          match checkToUpdateControllerSliceResourceQuota sliceUsage cpuAllNS memAllNs with
          | .error f => .error f
          | .ok true =>
            publish r slice quota namespacesInSlice cpuAllNS memAllNs currentTime
              [.checkToUpdate sliceUsage cpuAllNS memAllNs]
          | .ok false =>
            .ok { slice := slice, result := {}, err := none,
                  events := [.checkToUpdate sliceUsage cpuAllNS memAllNs] }

/-! ## The end-to-end example of the specification -/

/-- Slice "prod-slice" without a stored quota status. -/
def prodSlice : Slice :=
  { Name := "prod-slice", Status := { SliceConfig := { WorkerSliceResourceQuotaStatus := none },
                                       ConfigUpdatedOn := 0 } }

/-- Namespace "a": two pods, 50m of CPU and 10Mi of memory in total; namespace "b": one
pod, 30m and 5Mi. -/
def prodMetrics (ns : String) : List PodMetrics :=
  if ns = "a" then
    [⟨"a-0", [⟨"app", 20, 4194304⟩, ⟨"sidecar", 10, 2097152⟩]⟩, ⟨"a-1", [⟨"app", 20, 4194304⟩]⟩]
  else if ns = "b" then [⟨"b-0", [⟨"app", 30, 5242880⟩]⟩]
  else []

/-- The cluster of the example: both namespaces listed, every fetch succeeds and reads the
same samples. -/
def prodCluster : Cluster :=
  { listNamespaces := fun _ => .ok [⟨"a"⟩, ⟨"b"⟩],
    clientset := some (fun _ ns => ⟨prodMetrics ns, none⟩) }

/-! ## Container samples and exact sums -/

/-- The container samples of a list of pod metrics, pod after pod. -/
def samples (podMetricsList : List PodMetrics) : List ContainerMetrics :=
  (podMetricsList.map PodMetrics.Containers).flatten

/-- The exact sum of the CPU milli-values of a list of samples. -/
def cpuSum (cs : List ContainerMetrics) : Int :=
  (cs.map ContainerMetrics.cpuMilli).sum

/-- The exact sum of the memory byte values of a list of samples. -/
def memSum (cs : List ContainerMetrics) : Int :=
  (cs.map ContainerMetrics.memBytes).sum

/-! ## Further example inputs -/

/-- A slice with a stored quota status: 100 for the CPU and 100 for the memory. -/
def reportedSlice : Slice :=
  { Name := "prod-slice",
    Status :=
      { SliceConfig :=
          { WorkerSliceResourceQuotaStatus :=
              some ⟨⟨[], ⟨NewQuantity 100 .DecimalSI, NewQuantity 100 .BinarySI⟩⟩⟩ },
        ConfigUpdatedOn := 3 } }

/-- Both namespaces listed, no pod running in either. -/
def idleCluster : Cluster :=
  { listNamespaces := fun _ => .ok [⟨"a"⟩, ⟨"b"⟩],
    clientset := some (fun _ _ => ⟨[], none⟩) }

/-- The namespace listing fails. -/
def unlistableCluster : Cluster :=
  { listNamespaces := fun _ => .error "namespaces: forbidden",
    clientset := some (fun _ ns => ⟨prodMetrics ns, none⟩) }

/-- Both namespaces listed; the metrics of "b" cannot be fetched. -/
def unmeteredCluster : Cluster :=
  { listNamespaces := fun _ => .ok [⟨"a"⟩, ⟨"b"⟩],
    clientset := some (fun _ ns =>
      if ns = "b" then ⟨[], some "metrics unavailable"⟩ else ⟨prodMetrics ns, none⟩) }

/-- The slice of the example as a pass at time 7 leaves it: the status of the example
stored, built with `NewMilliQuantity`. -/
def prodSliceAfter : Slice :=
  { Name := "prod-slice",
    Status :=
      { SliceConfig :=
          { WorkerSliceResourceQuotaStatus :=
              some ⟨⟨[⟨⟨NewMilliQuantity 10485760 .DecimalSI, NewMilliQuantity 50 .BinarySI⟩, "a"⟩,
                      ⟨⟨NewMilliQuantity 5242880 .DecimalSI, NewMilliQuantity 30 .BinarySI⟩, "b"⟩],
                     ⟨NewMilliQuantity 80 .BinarySI, NewMilliQuantity 15728640 .DecimalSI⟩⟩⟩ },
        ConfigUpdatedOn := 7 } }

/-! ## Observing a pass -/

/-- The quota status stored on the slice when a pass ends, `none` when the pass panicked or
the slice has no stored status. -/
def storedQuota (o : Except Fault Outcome) : Option ClusterResourceQuotaStatus :=
  match o with
  | .error _ => none
  | .ok out =>
    match out.slice.Status.SliceConfig.WorkerSliceResourceQuotaStatus with
    | none => none
    | some quota => some quota.ClusterResourceQuotaStatus

/-- The status the pass over the example stores and sends to the hub. -/
def prodPublished : ClusterResourceQuotaStatus :=
  { NamespaceResourceQuotaStatus :=
      [{ ResourceUsage := { Cpu := NewMilliQuantity 10485760 .DecimalSI,
                            Memory := NewMilliQuantity 50 .BinarySI },
         Namespace := "a" },
       { ResourceUsage := { Cpu := NewMilliQuantity 5242880 .DecimalSI,
                            Memory := NewMilliQuantity 30 .BinarySI },
         Namespace := "b" }],
    ResourcesUsage := { Cpu := NewMilliQuantity 80 .BinarySI,
                        Memory := NewMilliQuantity 15728640 .DecimalSI } }

/-- The status the specification expects for the example:
namespaceUsages=[{a,50m,10Mi},{b,30m,5Mi}], totals={80m,15Mi}. -/
def prodExpected : ClusterResourceQuotaStatus :=
  { NamespaceResourceQuotaStatus :=
      [{ ResourceUsage := { Cpu := NewMilliQuantity 50 .DecimalSI,
                            Memory := NewQuantity 10485760 .BinarySI },
         Namespace := "a" },
       { ResourceUsage := { Cpu := NewMilliQuantity 30 .DecimalSI,
                            Memory := NewQuantity 5242880 .BinarySI },
         Namespace := "b" }],
    ResourcesUsage := { Cpu := NewMilliQuantity 80 .DecimalSI,
                        Memory := NewQuantity 15728640 .BinarySI } }

/-- The numbers of a breakdown: per entry the namespace, the CPU and the memory. -/
def entryValues (l : List NamespaceResourceQuotaStatus) : List (String × ℚ × ℚ) :=
  l.map fun e => (e.Namespace, e.ResourceUsage.Cpu.toRat, e.ResourceUsage.Memory.toRat)

/-- The sum of the `Cpu` fields of a breakdown. -/
def entriesCpu (l : List NamespaceResourceQuotaStatus) : ℚ :=
  (l.map fun e => e.ResourceUsage.Cpu.toRat).sum

/-- The sum of the `Memory` fields of a breakdown. -/
def entriesMemory (l : List NamespaceResourceQuotaStatus) : ℚ :=
  (l.map fun e => e.ResourceUsage.Memory.toRat).sum

/-! ## Arithmetic lemmas -/

theorem wrap64_of_inInt64 {x : Int} (h : inInt64 x) : wrap64 x = x := by
  unfold inInt64 at h
  unfold wrap64
  norm_num at h ⊢
  omega

theorem inInt64_wrap64 (x : Int) : inInt64 (wrap64 x) := by
  unfold inInt64 wrap64
  norm_num
  omega

theorem wrap64_wrap64_add (a b : Int) : wrap64 (wrap64 a + b) = wrap64 (a + b) := by
  unfold wrap64
  norm_num
  omega

theorem inInt64_tdiv {x a : Int} (hx : inInt64 x) (hmin : x ≠ -(2 ^ 63)) :
    inInt64 (Int.tdiv x a) := by
  have h1 : (Int.tdiv x a).natAbs ≤ x.natAbs := by
    rw [Int.natAbs_tdiv]
    exact Nat.div_le_self _ _
  unfold inInt64 at hx ⊢
  norm_num at hx hmin ⊢
  omega

/-- Without overflow the Go computation is the drift of the specification. -/
theorem calculatePercentageDiff_eq_drift {a b : Int} (ha : a ≠ 0)
    (hov : inInt64 ((b - a) * 100)) : calculatePercentageDiff a b = .ok (drift a b) := by
  have hsub : inInt64 (b - a) := by
    unfold inInt64 at hov ⊢
    norm_num at hov ⊢
    omega
  have hmin : (b - a) * 100 ≠ -(2 ^ 63) := by
    norm_num
    omega
  unfold calculatePercentageDiff drift
  rw [if_neg ha, wrap64_of_inInt64 hsub, wrap64_of_inInt64 hov,
    wrap64_of_inInt64 (inInt64_tdiv hov hmin)]

/-! ## Aggregation over one namespace -/

theorem containers_foldl (cs : List ContainerMetrics) (tot : Int × Int)
    (h1 : inInt64 tot.1) (h2 : inInt64 tot.2) :
    cs.foldl
        (fun tot container =>
          (wrap64 (tot.1 + container.cpuMilli), wrap64 (tot.2 + container.memBytes)))
        tot
      = (wrap64 (tot.1 + cpuSum cs), wrap64 (tot.2 + memSum cs)) := by
  induction cs generalizing tot with
  | nil =>
    simp [cpuSum, memSum, wrap64_of_inInt64 h1, wrap64_of_inInt64 h2]
  | cons c cs ih =>
    rw [List.foldl_cons, ih _ (inInt64_wrap64 _) (inInt64_wrap64 _)]
    simp only [cpuSum, memSum, List.map_cons, List.sum_cons, wrap64_wrap64_add, add_assoc]

theorem pods_foldl (pods : List PodMetrics) (tot : Int × Int)
    (h1 : inInt64 tot.1) (h2 : inInt64 tot.2) :
    pods.foldl
        (fun acc podMetrics =>
          podMetrics.Containers.foldl
            (fun tot container =>
              (wrap64 (tot.1 + container.cpuMilli), wrap64 (tot.2 + container.memBytes)))
            acc)
        tot
      = (wrap64 (tot.1 + cpuSum (samples pods)), wrap64 (tot.2 + memSum (samples pods))) := by
  induction pods generalizing tot with
  | nil =>
    simp [samples, cpuSum, memSum, wrap64_of_inInt64 h1, wrap64_of_inInt64 h2]
  | cons p pods ih =>
    rw [List.foldl_cons, containers_foldl _ _ h1 h2, ih _ (inInt64_wrap64 _) (inInt64_wrap64 _)]
    simp only [samples, cpuSum, memSum, List.map_cons, List.flatten_cons, List.map_append,
      List.sum_append, wrap64_wrap64_add, add_assoc]

theorem getCPUandMemoryMetricsofNs_eq (pods : List PodMetrics) :
    getCPUandMemoryMetricsofNs pods
      = (wrap64 (cpuSum (samples pods)), wrap64 (memSum (samples pods))) := by
  unfold getCPUandMemoryMetricsofNs
  rw [pods_foldl _ _ (by decide) (by decide)]
  simp

theorem cpuSum_perm {l₁ l₂ : List ContainerMetrics} (h : l₁.Perm l₂) :
    cpuSum l₁ = cpuSum l₂ :=
  (h.map ContainerMetrics.cpuMilli).sum_eq

theorem memSum_perm {l₁ l₂ : List ContainerMetrics} (h : l₁.Perm l₂) :
    memSum l₁ = memSum l₂ :=
  (h.map ContainerMetrics.memBytes).sum_eq

/-- C6. `getCPUandMemoryMetricsofNs` returns the `int64` sums of the CPU milli-values and of
the memory byte values of all containers of all pods: the exact sums reduced into `int64`,
hence the exact sums whenever these fit in `int64`. The result is `(0, 0)` for the empty
list, and two lists whose flattened container samples are permutations of each other give
the same result, however the samples are grouped into pods. -/
theorem getCPUandMemoryMetricsofNs_sums :
    (∀ pods : List PodMetrics,
      getCPUandMemoryMetricsofNs pods
        = (wrap64 (cpuSum (samples pods)), wrap64 (memSum (samples pods)))) ∧
    (∀ pods : List PodMetrics,
      inInt64 (cpuSum (samples pods)) → inInt64 (memSum (samples pods)) →
        getCPUandMemoryMetricsofNs pods = (cpuSum (samples pods), memSum (samples pods))) ∧
    getCPUandMemoryMetricsofNs [] = (0, 0) ∧
    (∀ pods₁ pods₂ : List PodMetrics,
      (samples pods₁).Perm (samples pods₂) →
        getCPUandMemoryMetricsofNs pods₁ = getCPUandMemoryMetricsofNs pods₂) := by
  refine ⟨getCPUandMemoryMetricsofNs_eq, ?_, rfl, ?_⟩
  · intro pods h1 h2
    rw [getCPUandMemoryMetricsofNs_eq, wrap64_of_inInt64 h1, wrap64_of_inInt64 h2]
  · intro pods₁ pods₂ h
    rw [getCPUandMemoryMetricsofNs_eq, getCPUandMemoryMetricsofNs_eq, cpuSum_perm h,
      memSum_perm h]

/-- Witness for C6: namespace "a" of the end-to-end example sums to 50m and 10Mi, and
regrouping its three samples into pods differently and in another order changes nothing. -/
theorem getCPUandMemoryMetricsofNs_sums_witness :
    getCPUandMemoryMetricsofNs (prodMetrics "a") = (50, 10485760) ∧
    getCPUandMemoryMetricsofNs (prodMetrics "a")
      = getCPUandMemoryMetricsofNs
          [⟨"x", [⟨"app", 20, 4194304⟩]⟩, ⟨"y", []⟩,
           ⟨"z", [⟨"app", 20, 4194304⟩, ⟨"sidecar", 10, 2097152⟩]⟩] :=
  ⟨getCPUandMemoryMetricsofNs_sums.2.1 (prodMetrics "a") (by decide) (by decide),
   getCPUandMemoryMetricsofNs_sums.2.2.2 (prodMetrics "a")
     [⟨"x", [⟨"app", 20, 4194304⟩]⟩, ⟨"y", []⟩,
      ⟨"z", [⟨"app", 20, 4194304⟩, ⟨"sidecar", 10, 2097152⟩]⟩] (by decide)⟩

/-! ## The update decision -/

/-- C10. The decision does not depend on the new memory aggregate: the memory drift is
computed from the CPU candidate, so any two memory candidates give the same answer (or the
same panic). -/
theorem checkToUpdate_ignores_mem (sliceUsage : Resource) (cpu mem₁ mem₂ : Int) :
    checkToUpdateControllerSliceResourceQuota sliceUsage cpu mem₁
      = checkToUpdateControllerSliceResourceQuota sliceUsage cpu mem₂ :=
  rfl

/-- C9. When the stored CPU value `p` is positive and the CPU drift `((c - p) * 100) / p`
exceeds 5 without `int64` overflow, the decision is `true` for every stored memory value,
zero included, and every new memory aggregate. -/
theorem checkToUpdate_cpu_drift (sliceUsage : Resource) (c mem p : Int)
    (hp : sliceUsage.Cpu.AsInt64.1 = p) (hpos : 0 < p)
    (hov : inInt64 ((c - p) * 100)) (hd : drift p c > 5) :
    checkToUpdateControllerSliceResourceQuota sliceUsage c mem = .ok true := by
  have h := calculatePercentageDiff_eq_drift (ne_of_gt hpos) hov
  simp only [checkToUpdateControllerSliceResourceQuota, hp, h]
  rw [if_pos hd]

/-- Witness for C9: previous {cpu:100, mem:100}, new {cpu:106, mem:100}; and the same with a
stored memory value of 0. -/
theorem checkToUpdate_cpu_drift_witness :
    checkToUpdateControllerSliceResourceQuota
        ⟨NewQuantity 100 .DecimalSI, NewQuantity 100 .BinarySI⟩ 106 100 = .ok true ∧
    checkToUpdateControllerSliceResourceQuota
        ⟨NewQuantity 100 .DecimalSI, NewQuantity 0 .BinarySI⟩ 106 100 = .ok true :=
  ⟨checkToUpdate_cpu_drift ⟨NewQuantity 100 .DecimalSI, NewQuantity 100 .BinarySI⟩ 106 100 100
     rfl (by decide) (by decide) (by decide),
   checkToUpdate_cpu_drift ⟨NewQuantity 100 .DecimalSI, NewQuantity 0 .BinarySI⟩ 106 100 100
     rfl (by decide) (by decide) (by decide)⟩

/-- C1, the claim as stated fails. With 100 stored for both resources (read back by
`AsInt64` as 100): a CPU aggregate halved to 50 has drift -50, of absolute value above 5, and
the decision is `false`; a memory aggregate doubled to 200 has drift 100 and the decision is
`false`; a CPU aggregate of `2 ^ 62`, whose difference times 100 overflows `int64`, has a
drift above 5 and the decision is `false`. -/
theorem checkToUpdate_abs_drift_counterexample :
    (NewQuantity 100 .DecimalSI).AsInt64 = (100, true) ∧
    (NewQuantity 100 .BinarySI).AsInt64 = (100, true) ∧
    (checkToUpdateControllerSliceResourceQuota
        ⟨NewQuantity 100 .DecimalSI, NewQuantity 100 .BinarySI⟩ 50 100 = .ok false ∧
      (|drift 100 50| > 5 ∨ |drift 100 100| > 5)) ∧
    (checkToUpdateControllerSliceResourceQuota
        ⟨NewQuantity 100 .DecimalSI, NewQuantity 100 .BinarySI⟩ 100 200 = .ok false ∧
      (|drift 100 100| > 5 ∨ |drift 100 200| > 5)) ∧
    (checkToUpdateControllerSliceResourceQuota
        ⟨NewQuantity 100 .DecimalSI, NewQuantity 100 .BinarySI⟩ (2 ^ 62) 100 = .ok false ∧
      (|drift 100 (2 ^ 62)| > 5 ∨ |drift 100 100| > 5)) := by
  decide

/-- C1, amended. For stored values `p` and `m` (as read by `AsInt64`), both non-zero, and a
new aggregate `(cpu, mem)` such that neither `(cpu - p) * 100` nor `(cpu - m) * 100`
overflows `int64` and the memory test has the same verdict on the CPU candidate as on the
memory candidate, the decision returns, and it is `true` exactly when `drift p cpu > 5` or
`drift m mem > 5`: the drifts are signed, a decrease never triggers an update. -/
theorem checkToUpdate_signed_drift (sliceUsage : Resource) (cpu mem p m : Int)
    (hp : sliceUsage.Cpu.AsInt64.1 = p) (hm : sliceUsage.Memory.AsInt64.1 = m)
    (hp0 : p ≠ 0) (hm0 : m ≠ 0)
    (hovp : inInt64 ((cpu - p) * 100)) (hovm : inInt64 ((cpu - m) * 100))
    (hagree : drift m cpu > 5 ↔ drift m mem > 5) :
    checkToUpdateControllerSliceResourceQuota sliceUsage cpu mem
      = .ok (decide (drift p cpu > 5 ∨ drift m mem > 5)) := by
  have h1 := calculatePercentageDiff_eq_drift hp0 hovp
  have h2 := calculatePercentageDiff_eq_drift hm0 hovm
  simp only [checkToUpdateControllerSliceResourceQuota, hp, hm, h1, h2]
  by_cases hd1 : drift p cpu > 5
  · simp [hd1]
  · by_cases hd2 : drift m cpu > 5
    · simp [hd1, hd2, hagree.mp hd2]
    · have hd3 : ¬ drift m mem > 5 := fun h => hd2 (hagree.mpr h)
      simp [hd1, hd2, hd3]

/-- Witness for the amended C1: previous {cpu:100, mem:100}, new {cpu:104, mem:100} gives
`false`. -/
theorem checkToUpdate_signed_drift_witness :
    checkToUpdateControllerSliceResourceQuota
        ⟨NewQuantity 100 .DecimalSI, NewQuantity 100 .BinarySI⟩ 104 100
      = .ok (decide (drift 100 104 > 5 ∨ drift 100 100 > 5)) ∧
    decide (drift 100 104 > 5 ∨ drift 100 100 > 5) = false :=
  ⟨checkToUpdate_signed_drift ⟨NewQuantity 100 .DecimalSI, NewQuantity 100 .BinarySI⟩
     104 100 100 100 rfl rfl (by decide) (by decide) (by decide) (by decide) (by decide),
   by decide⟩

/-- C2, the code at the failing input. With 0 stored, a new aggregate of 5 makes
`calculatePercentageDiff` divide by zero, and so does the decision, whether the zero is
the stored CPU value or, the CPU test failing, the stored memory value. A pass over the
cluster of the example, on a slice whose stored status is the zero value, panics too. -/
theorem checkToUpdate_zero_observed_divides_by_zero :
    (NewQuantity 0 .DecimalSI).AsInt64 = (0, true) ∧
    calculatePercentageDiff 0 5 = .error .divideByZero ∧
    checkToUpdateControllerSliceResourceQuota
        ⟨NewQuantity 0 .DecimalSI, NewQuantity 0 .BinarySI⟩ 5 5 = .error .divideByZero ∧
    checkToUpdateControllerSliceResourceQuota
        ⟨NewQuantity 100 .DecimalSI, NewQuantity 0 .BinarySI⟩ 100 5 = .error .divideByZero ∧
    reconcileNamespaceResourceUsage prodCluster
        { prodSlice with Status := { SliceConfig := ⟨some WorkerSliceResourceQuotaStatus.empty⟩,
                                     ConfigUpdatedOn := 0 } } 7 0
      = .error .divideByZero := by
  decide

/-! ## The reconciliation pass -/

theorem publishLoop_some (c : Nat → String → PodMetricsListResult) (nss : List Namespace)
    (k : Nat) (acc : List NamespaceResourceQuotaStatus) :
    ∃ l, publishLoop (some c) nss k acc = .ok l ∧
      l.map NamespaceResourceQuotaStatus.Namespace
        = acc.map NamespaceResourceQuotaStatus.Namespace ++ nss.map Namespace.Name := by
  induction nss generalizing k acc with
  | nil => exact ⟨acc, rfl, by simp⟩
  | cons ns rest ih =>
    obtain ⟨l, hl, hn⟩ := ih (k + 1)
      (acc ++
        [{ ResourceUsage :=
             { Cpu := NewMilliQuantity (getCPUandMemoryMetricsofNs (c k ns.Name).Items).2
                 .DecimalSI,
               Memory := NewMilliQuantity (getCPUandMemoryMetricsofNs (c k ns.Name).Items).1
                 .BinarySI },
           Namespace := ns.Name }])
    refine ⟨l, ?_, ?_⟩
    · simpa [publishLoop] using hl
    · simpa using hn

/-- C5. When listing succeeds and the first loop ends with both totals exactly 0, the pass
returns the empty result and a nil error, the slice is the slice it received, with or
without a stored status, and no call is made to the hub or to the status writer. -/
theorem reconcile_zero_usage (r : Cluster) (slice : Slice) (currentTime configUpdatedOn : Int)
    (namespacesInSlice : List Namespace)
    (hlist : r.listNamespaces slice.Name = .ok namespacesInSlice)
    (hzero : decisionLoop r.clientset namespacesInSlice 0 0 0 = .ok (.ok (0, 0))) :
    reconcileNamespaceResourceUsage r slice currentTime configUpdatedOn
      = .ok { slice := slice, result := {}, err := none, events := [] } := by
  simp [reconcileNamespaceResourceUsage, hlist, hzero]

/-- Witness for C5: no pod in either namespace, a slice with a stored status. -/
theorem reconcile_zero_usage_witness :
    reconcileNamespaceResourceUsage idleCluster reportedSlice 7 3
      = .ok { slice := reportedSlice, result := {}, err := none, events := [] } :=
  reconcile_zero_usage idleCluster reportedSlice 7 3 [⟨"a"⟩, ⟨"b"⟩] rfl (by decide)

theorem publish_err (r : Cluster) (slice : Slice) (quota : WorkerSliceResourceQuotaStatus)
    (nss : List Namespace) (cpuAllNS memAllNs currentTime : Int) (events : List Event)
    (out : Outcome)
    (h : publish r slice quota nss cpuAllNS memAllNs currentTime events = .ok out) :
    out.err = none := by
  unfold publish at h
  split at h
  · exact absurd h (by simp)
  · simp only [Except.ok.injEq] at h
    rw [← h]

/-- C7. A failed namespace listing and a failed metrics fetch in the first loop both end the
pass with that error, the slice it received and no call to the hub or to the status writer;
and every pass that returns a non-nil error leaves the slice as it received it and makes no
such call. -/
theorem reconcile_error_leaves_slice (r : Cluster) (slice : Slice)
    (currentTime configUpdatedOn : Int) :
    (∀ e, r.listNamespaces slice.Name = .error e →
      reconcileNamespaceResourceUsage r slice currentTime configUpdatedOn
        = .ok { slice := slice, result := {}, err := some e, events := [] }) ∧
    (∀ nss e, r.listNamespaces slice.Name = .ok nss →
      decisionLoop r.clientset nss 0 0 0 = .ok (.error e) →
      reconcileNamespaceResourceUsage r slice currentTime configUpdatedOn
        = .ok { slice := slice, result := {}, err := some e, events := [] }) ∧
    (∀ out, reconcileNamespaceResourceUsage r slice currentTime configUpdatedOn = .ok out →
      out.err ≠ none → out.slice = slice ∧ out.events = []) := by
  refine ⟨?_, ?_, ?_⟩
  · intro e he
    simp [reconcileNamespaceResourceUsage, he]
  · intro nss e hl hd
    simp [reconcileNamespaceResourceUsage, hl, hd]
  · intro out h herr
    unfold reconcileNamespaceResourceUsage at h
    split at h
    · simp only [Except.ok.injEq] at h
      subst h
      exact ⟨rfl, rfl⟩
    · split at h
      · exact absurd h (by simp)
      · simp only [Except.ok.injEq] at h
        subst h
        exact ⟨rfl, rfl⟩
      · split at h
        · simp only [Except.ok.injEq] at h
          subst h
          exact absurd rfl herr
        · split at h
          · exact absurd (publish_err _ _ _ _ _ _ _ _ _ h) herr
          · simp only at h
            split at h
            · exact absurd h (by simp)
            · exact absurd (publish_err _ _ _ _ _ _ _ _ _ h) herr
            · simp only [Except.ok.injEq] at h
              subst h
              exact absurd rfl herr

/-- Witness for C7: the listing fails; the fetch for "b" fails; in both passes the slice
with its stored status comes back as it was. -/
theorem reconcile_error_leaves_slice_witness :
    reconcileNamespaceResourceUsage unlistableCluster reportedSlice 7 3
      = .ok { slice := reportedSlice, result := {}, err := some "namespaces: forbidden",
              events := [] } ∧
    reconcileNamespaceResourceUsage unmeteredCluster reportedSlice 7 3
      = .ok { slice := reportedSlice, result := {}, err := some "metrics unavailable",
              events := [] } ∧
    ({ slice := reportedSlice, result := {}, err := some "metrics unavailable",
       events := [] } : Outcome).slice = reportedSlice ∧
    ({ slice := reportedSlice, result := {}, err := some "metrics unavailable",
       events := [] } : Outcome).events = [] :=
  ⟨(reconcile_error_leaves_slice unlistableCluster reportedSlice 7 3).1 _ rfl,
   (reconcile_error_leaves_slice unmeteredCluster reportedSlice 7 3).2.1
     [⟨"a"⟩, ⟨"b"⟩] _ rfl (by decide),
   (reconcile_error_leaves_slice unmeteredCluster reportedSlice 7 3).2.2 _
     ((reconcile_error_leaves_slice unmeteredCluster reportedSlice 7 3).2.1
       [⟨"a"⟩, ⟨"b"⟩] _ rfl (by decide)) (by simp)⟩

theorem decisionLoop_nonzero {clientset : Option (Nat → String → PodMetricsListResult)}
    {nss : List Namespace} {cpuAllNS memAllNs : Int}
    (hagg : decisionLoop clientset nss 0 0 0 = .ok (.ok (cpuAllNS, memAllNs)))
    (hnz : ¬ (cpuAllNS = 0 ∧ memAllNs = 0)) : ∃ c, clientset = some c := by
  cases nss with
  | nil =>
    simp only [decisionLoop, Except.ok.injEq, Prod.mk.injEq] at hagg
    exact absurd ⟨hagg.1.symm, hagg.2.symm⟩ hnz
  | cons ns rest =>
    cases clientset with
    | none => simp [decisionLoop] at hagg
    | some c => exact ⟨c, rfl⟩

/-- C4. On a slice without a stored quota status, when listing succeeds and the first loop
ends without a failed fetch on totals that are not both 0, the pass updates whatever the
totals are: the second loop returns a breakdown with one entry per listed namespace, in
order; the slice gets a status made of that breakdown and of the two totals; that status is
sent to the hub under the slice's name; `ConfigUpdatedOn` becomes `currentTime`; the slice
is written back; the pass returns the empty result and a nil error. These are the only
events of the pass: the drift check is not evaluated. -/
theorem reconcile_first_observation (r : Cluster) (slice : Slice)
    (currentTime configUpdatedOn : Int) (namespacesInSlice : List Namespace)
    (cpuAllNS memAllNs : Int)
    (hnil : slice.Status.SliceConfig.WorkerSliceResourceQuotaStatus = none)
    (hlist : r.listNamespaces slice.Name = .ok namespacesInSlice)
    (hagg : decisionLoop r.clientset namespacesInSlice 0 0 0 = .ok (.ok (cpuAllNS, memAllNs)))
    (hnz : ¬ (cpuAllNS = 0 ∧ memAllNs = 0)) :
    ∃ allNsResourceUsage : List NamespaceResourceQuotaStatus,
      publishLoop r.clientset namespacesInSlice namespacesInSlice.length []
        = .ok allNsResourceUsage ∧
      allNsResourceUsage.map NamespaceResourceQuotaStatus.Namespace
        = namespacesInSlice.map Namespace.Name ∧
      reconcileNamespaceResourceUsage r slice currentTime configUpdatedOn
        = .ok
            { slice :=
                { Name := slice.Name,
                  Status :=
                    { SliceConfig :=
                        { WorkerSliceResourceQuotaStatus :=
                            some ⟨⟨allNsResourceUsage,
                              ⟨NewMilliQuantity cpuAllNS .BinarySI,
                               NewMilliQuantity memAllNs .DecimalSI⟩⟩⟩ },
                      ConfigUpdatedOn := currentTime } },
              result := {},
              err := none,
              events :=
                [.hubUpdateResourceUsage slice.Name
                   ⟨⟨allNsResourceUsage,
                     ⟨NewMilliQuantity cpuAllNS .BinarySI,
                      NewMilliQuantity memAllNs .DecimalSI⟩⟩⟩,
                 .statusUpdate
                   { Name := slice.Name,
                     Status :=
                       { SliceConfig :=
                           { WorkerSliceResourceQuotaStatus :=
                               some ⟨⟨allNsResourceUsage,
                                 ⟨NewMilliQuantity cpuAllNS .BinarySI,
                                  NewMilliQuantity memAllNs .DecimalSI⟩⟩⟩ },
                         ConfigUpdatedOn := currentTime } }] } := by
  obtain ⟨c, hc⟩ := decisionLoop_nonzero hagg hnz
  obtain ⟨l, hl, hn⟩ := publishLoop_some c namespacesInSlice namespacesInSlice.length []
  rw [← hc] at hl
  refine ⟨l, hl, by simpa using hn, ?_⟩
  simp [reconcileNamespaceResourceUsage, hlist, hagg, hnz, hnil, publish, hl]

set_option maxRecDepth 100000 in
/-- Witness for C4: the end-to-end example, on totals 80 and 15728640. -/
theorem reconcile_first_observation_witness :
    ∃ allNsResourceUsage : List NamespaceResourceQuotaStatus,
      publishLoop prodCluster.clientset [⟨"a"⟩, ⟨"b"⟩] 2 [] = .ok allNsResourceUsage ∧
      allNsResourceUsage.map NamespaceResourceQuotaStatus.Namespace = ["a", "b"] ∧
      reconcileNamespaceResourceUsage prodCluster prodSlice 7 0
        = .ok
            { slice :=
                { Name := "prod-slice",
                  Status :=
                    { SliceConfig :=
                        { WorkerSliceResourceQuotaStatus :=
                            some ⟨⟨allNsResourceUsage,
                              ⟨NewMilliQuantity 80 .BinarySI,
                               NewMilliQuantity 15728640 .DecimalSI⟩⟩⟩ },
                      ConfigUpdatedOn := 7 } },
              result := {},
              err := none,
              events :=
                [.hubUpdateResourceUsage "prod-slice"
                   ⟨⟨allNsResourceUsage,
                     ⟨NewMilliQuantity 80 .BinarySI,
                      NewMilliQuantity 15728640 .DecimalSI⟩⟩⟩,
                 .statusUpdate
                   { Name := "prod-slice",
                     Status :=
                       { SliceConfig :=
                           { WorkerSliceResourceQuotaStatus :=
                               some ⟨⟨allNsResourceUsage,
                                 ⟨NewMilliQuantity 80 .BinarySI,
                                  NewMilliQuantity 15728640 .DecimalSI⟩⟩⟩ },
                         ConfigUpdatedOn := 7 } }] } :=
  reconcile_first_observation prodCluster prodSlice 7 0 [⟨"a"⟩, ⟨"b"⟩] 80 15728640
    rfl rfl (by decide) (by decide)

set_option maxRecDepth 100000 in
/-- C3, the code on the example of the specification. The pass stores `prodPublished`:
the entry of "a" has `Cpu` 10485.76, the memory sum written in milli-units, and `Memory`
0.05, the CPU sum written in milli-units, where 0.05 (50m) and 10485760 (10Mi) are
expected; likewise for "b"; the total `Memory` is 15728.64 where 15728640 (15Mi) is
expected. -/
theorem reconcile_example_breakdown :
    storedQuota (reconcileNamespaceResourceUsage prodCluster prodSlice 7 0)
      = some prodPublished ∧
    entryValues prodPublished.NamespaceResourceQuotaStatus
      = [("a", 10485760 / 1000, 50 / 1000), ("b", 5242880 / 1000, 30 / 1000)] ∧
    entryValues prodExpected.NamespaceResourceQuotaStatus
      = [("a", 50 / 1000, 10485760), ("b", 30 / 1000, 5242880)] ∧
    prodPublished.ResourcesUsage.Cpu.toRat = 80 / 1000 ∧
    prodExpected.ResourcesUsage.Cpu.toRat = 80 / 1000 ∧
    prodPublished.ResourcesUsage.Memory.toRat = 15728640 / 1000 ∧
    prodExpected.ResourcesUsage.Memory.toRat = 15728640 := by
  refine ⟨by decide, ?_, ?_, ?_, ?_, ?_, ?_⟩ <;>
    norm_num [entryValues, prodPublished, prodExpected, Quantity.toRat, NewMilliQuantity,
      NewQuantity]

set_option maxRecDepth 100000 in
/-- C8, the code on the example of the specification, both loops reading the same samples.
The total `Cpu` is 0.08 and the `Cpu` fields of the entries sum to 15728.64; the total
`Memory` is 15728.64 and the `Memory` fields of the entries sum to 0.08. -/
theorem reconcile_example_totals :
    storedQuota (reconcileNamespaceResourceUsage prodCluster prodSlice 7 0)
      = some prodPublished ∧
    prodPublished.ResourcesUsage.Cpu.toRat = 80 / 1000 ∧
    entriesCpu prodPublished.NamespaceResourceQuotaStatus = 15728640 / 1000 ∧
    prodPublished.ResourcesUsage.Cpu.toRat
      ≠ entriesCpu prodPublished.NamespaceResourceQuotaStatus ∧
    prodPublished.ResourcesUsage.Memory.toRat = 15728640 / 1000 ∧
    entriesMemory prodPublished.NamespaceResourceQuotaStatus = 80 / 1000 ∧
    prodPublished.ResourcesUsage.Memory.toRat
      ≠ entriesMemory prodPublished.NamespaceResourceQuotaStatus := by
  refine ⟨by decide, ?_, ?_, ?_, ?_, ?_, ?_⟩ <;>
    norm_num [entriesCpu, entriesMemory, prodPublished, Quantity.toRat, NewMilliQuantity]

/-- A quantity built by `NewMilliQuantity` is read back by `AsInt64` as `(0, false)`. -/
theorem AsInt64_NewMilliQuantity (value : Int) (format : Format) :
    (NewMilliQuantity value format).AsInt64 = (0, false) := by
  simp [NewMilliQuantity, Quantity.AsInt64]

set_option maxRecDepth 100000 in
/-- The example, twice. The first pass leaves `prodSliceAfter`; a second pass over the same
cluster reads the stored CPU total back as 0 and divides by it. -/
theorem reconcile_example_second_pass :
    (match reconcileNamespaceResourceUsage prodCluster prodSlice 7 0 with
      | .ok out => some out.slice
      | .error _ => none) = some prodSliceAfter ∧
    reconcileNamespaceResourceUsage prodCluster prodSliceAfter 8 7 = .error .divideByZero := by
  decide

end ResourceUsage
